import Mathlib

/-! # natsbench: publisher and subscriber metrics

A shallow embedding of `publisher/main.go` and `subscriber/main.go`.

* `uint64` fields are natural numbers reduced modulo `2^64` at every
  `atomic.AddUint64`.
* `time.Time` is a wall-clock reading in nanoseconds together with an
  optional monotonic reading; `time.Duration` is an `int64` number of
  nanoseconds, and `Time.Sub` saturates as in the Go standard library.
* `float64` arithmetic of `reportMetrics` is kept symbolic (`F64`): the
  embedding records which operations are performed on which operands.
* The clock, the transport and `encoding/json` are the environment: every
  clock reading and every library outcome is an explicit input.
-/

namespace Natsbench

/-! ## Machine integers and time -/

/-- Modulus of `uint64` arithmetic. -/
def u64 : Nat := 2 ^ 64

/-- Atomic `atomic.AddUint64(&x, d)`: the new value of `x`. -/
def addUint64 (x d : Nat) : Nat := (x + d) % u64

/-- Go conversion `uint64(v)` of an `int64` value. -/
def toUint64 (v : Int) : Nat := (v % (2 ^ 64 : Int)).toNat

/-- Largest `time.Duration` (`1<<63 - 1` nanoseconds). -/
def maxDuration : Int := 2 ^ 63 - 1

/-- Smallest `time.Duration` (`-1 << 63` nanoseconds). -/
def minDuration : Int := -(2 ^ 63)

/-- The constant `time.Second`, in nanoseconds. -/
def Second : Int := 1000000000

/-- A `time.Time`: wall clock in nanoseconds, and the monotonic reading
that `time.Now()` attaches (absent after a JSON round trip). -/
structure Time where
  wall : Int
  mono : Option Int
  deriving DecidableEq, Repr

/-- Saturation of a nanosecond difference into the `int64` range of
`time.Duration`, as done by `Time.Sub`. -/
def saturate (d : Int) : Int :=
  if d > maxDuration then maxDuration
  else if d < minDuration then minDuration
  else d

/-- Go `t.Sub(u)`: the monotonic readings are used when both are present,
the wall clock otherwise; the result saturates. -/
def Time.Sub (t u : Time) : Int :=
  match t.mono, u.mono with
  | some a, some b => saturate (a - b)
  | _, _ => saturate (t.wall - u.wall)

/-- Go `time.Since(t)`, with the clock reading `now` it takes made explicit. -/
def Since (now t : Time) : Int := now.Sub t

/-- Go `Duration.Microseconds()`: integer division truncating toward zero. -/
def Microseconds (d : Int) : Int := Int.tdiv d 1000

/-! ## Symbolic `float64` values -/

/-- The `float64` expressions computed by `reportMetrics`. -/
inductive F64 where
  | ofUint64 (n : Nat)
  | seconds (d : Int)
  | const (n : Nat)
  | mul (a b : F64)
  | div (a b : F64)
  deriving DecidableEq, Repr

/-- The divisors of all divisions performed in an expression. -/
def F64.divisors : F64 → List F64
  | .ofUint64 _ => []
  | .seconds _ => []
  | .const _ => []
  | .mul a b => a.divisors ++ b.divisors
  | .div a b => b :: (a.divisors ++ b.divisors)

/-! ## Publisher (`publisher/main.go`) -/

namespace Publisher

/-- The wire message of the publisher. -/
structure Message where
  ID : Nat
  Timestamp : Time
  Data : String
  Size : Int
  deriving DecidableEq, Repr

/-- Publisher metrics. -/
structure Metrics where
  counter : Nat
  bytesSent : Nat
  errorCount : Nat
  startTime : Time
  lastReportTime : Time
  deriving DecidableEq, Repr

/-- The figures logged by `reportMetrics`. -/
structure Report where
  count : Nat
  rate : F64
  throughput : F64
  deriving DecidableEq, Repr

/-- Go `reportMetrics(m *Metrics)`; `now` is the clock reading taken by
`time.Since(m.startTime)`. The metrics are returned because the function
receives a pointer. -/
def reportMetrics (m : Metrics) (now : Time) : Metrics × Report :=
  let elapsed := Since now m.startTime
  let count := m.counter
  let bytes := m.bytesSent
  let rate := F64.div (F64.ofUint64 count) (F64.seconds elapsed)
  let throughput :=
    F64.div (F64.ofUint64 bytes) (F64.mul (F64.const (1024 * 1024)) (F64.seconds elapsed))
  (m, { count := count, rate := rate, throughput := throughput })

/-- Go `fmt.Sprintf("Mensaje %d del publicador Go", n)`. -/
def sprintfData (n : Nat) : String :=
  "Mensaje " ++ toString n ++ " del publicador Go"

/-- Go `json.Marshal(msg)` for the struct `Message`: the fields in declaration
order under their JSON tags. `ts` is the result of `Timestamp.MarshalJSON()`
(the quoted RFC 3339 text, or `none` when it returns an error, which is the
only way `json.Marshal` fails on this struct). `Data` is emitted between
quotes: the text built by `sprintfData` has no character that JSON escapes. -/
def jsonMarshal (ts : Option String) (msg : Message) : Option String :=
  match ts with
  | none => none
  | some t =>
    some ("\x7b\"id\":" ++ toString msg.ID ++ ",\"timestamp\":" ++ t ++
      ",\"data\":\"" ++ msg.Data ++ "\",\"size\":" ++ toString msg.Size ++ "\x7d")

/-- Go `len(data)` for a payload: its number of bytes. -/
def len (data : String) : Nat := data.utf8ByteSize

/-- What the environment supplies during one iteration of the publishing
loop (one receive from `ticker.C`). -/
structure TickEvent where
  /-- The reading of `time.Now()` stored in `msg.Timestamp`. -/
  now : Time
  /-- The result of `Timestamp.MarshalJSON()` inside `json.Marshal`. -/
  tsJSON : Option String
  /-- Whether `nc.Publish` returned a nil error. -/
  publishOk : Bool
  /-- The clock reading of `time.Since(metrics.lastReportTime)`. -/
  sinceNow : Time
  /-- The clock reading of `time.Since(m.startTime)` in `reportMetrics`. -/
  reportNow : Time
  /-- The reading of `time.Now()` stored in `metrics.lastReportTime`. -/
  setNow : Time
  deriving DecidableEq, Repr

/-- The observable outcome of one iteration of the publishing loop. -/
structure TickResult where
  /-- The metrics after the iteration. -/
  metrics : Metrics
  /-- The message value that was passed to `json.Marshal`. -/
  marshalled : Message
  /-- The local variable `msg` at the end of the iteration. -/
  msg : Message
  /-- The payload passed to `nc.Publish`, when it was called. -/
  handed : Option String
  /-- Whether `nc.Publish` was called and returned a nil error. -/
  published : Bool
  /-- The periodic report, when one was logged. -/
  report : Option Report
  deriving DecidableEq, Repr

/-- One iteration of the publishing loop (`case <-ticker.C:`). -/
def tick (m : Metrics) (e : TickEvent) : TickResult :=
  let id := addUint64 m.counter 1
  let m1 := { m with counter := id }
  let msg : Message :=
    { ID := id, Timestamp := e.now, Data := sprintfData m1.counter, Size := 0 }
  match jsonMarshal e.tsJSON msg with
  | none =>
    { metrics := { m1 with errorCount := addUint64 m1.errorCount 1 },
      marshalled := msg, msg := msg, handed := none, published := false, report := none }
  | some data =>
    let msg2 := { msg with Size := (len data : Int) }
    if e.publishOk = false then
      { metrics := { m1 with errorCount := addUint64 m1.errorCount 1 },
        marshalled := msg, msg := msg2, handed := some data, published := false,
        report := none }
    else
      let m2 := { m1 with bytesSent := addUint64 m1.bytesSent (len data) }
      if Since e.sinceNow m2.lastReportTime ≥ Second then
        let (m3, r) := reportMetrics m2 e.reportNow
        { metrics := { m3 with lastReportTime := e.setNow },
          marshalled := msg, msg := msg2, handed := some data, published := true,
          report := some r }
      else
        { metrics := m2, marshalled := msg, msg := msg2, handed := some data,
          published := true, report := none }

/-- The metrics built at the start of `main`. -/
def initMetrics (t0 t1 : Time) : Metrics :=
  { counter := 0, bytesSent := 0, errorCount := 0, startTime := t0, lastReportTime := t1 }

/-- The publishing loop over a finite sequence of ticks: the final metrics
and the outcome of every iteration, in order. -/
def run (m : Metrics) : List TickEvent → Metrics × List TickResult
  | [] => (m, [])
  | e :: es =>
    let r := tick m e
    let rest := run r.metrics es
    (rest.1, r :: rest.2)

/-! ### Publisher configuration and start-up -/

/-- Go `strconv.Atoi`: an optional sign followed by one or more decimal
digits, within the range of `int` (64 bits); `none` stands for a non-nil
error. -/
def Atoi (s : String) : Option Int :=
  let cs := s.toList
  let signed : Bool × List Char :=
    match cs with
    | '-' :: r => (true, r)
    | '+' :: r => (false, r)
    | _ => (false, cs)
  let ds := signed.2
  if ds.isEmpty || !ds.all Char.isDigit then none
  else
    let n : Int := ds.foldl (fun a c => 10 * a + ((c.toNat - 48 : Nat) : Int)) 0
    let v : Int := if signed.1 then -n else n
    if v < -(2 ^ 63) ∨ v > 2 ^ 63 - 1 then none else some v

/-- Go `getEnvInt(key, defaultValue)`; `lookup` is `os.LookupEnv`. -/
def getEnvInt (lookup : String → Option String) (key : String) (defaultValue : Int) : Int :=
  match lookup key with
  | some value =>
    match Atoi value with
    | some intVal => intVal
    | none => defaultValue
  | none => defaultValue

/-- How the start-up of the publisher's `main` ends. -/
inductive Startup where
  /-- Fatal exit through `log.Fatalf` after `nats.Connect` returned an error. -/
  | fatalConnect
  /-- Run-time panic "integer divide by zero" in
  `time.Second / time.Duration(publishRate)`. -/
  | panicDivideByZero
  /-- Run-time panic of `time.NewTicker` on a non-positive interval. -/
  | panicNonPositiveInterval
  /-- The publishing loop is started with a ticker of the given period. -/
  | running (period : Int)
  deriving DecidableEq, Repr

/-- The expression `time.Second / time.Duration(publishRate)`: `none` is the
integer division by zero. -/
def tickerPeriod (publishRate : Int) : Option Int :=
  if publishRate = 0 then none else some (Int.tdiv Second publishRate)

/-- Go `time.NewTicker(d)`: it panics when `d <= 0`. -/
def NewTicker (d : Int) : Option Int :=
  if d ≤ 0 then none else some d

/-- The start of the publisher's `main` up to the creation of the ticker:
the configuration is read, the connection is made (`connectOk` tells whether
`nats.Connect` succeeded), then the period is computed and the ticker
created. No statement between reading `PUBLISH_RATE` and the division
inspects the rate; reading `TEST_DURATION` and creating the test timer, which
come in between, cannot fail and are left out. -/
def startup (lookup : String → Option String) (connectOk : Bool) : Startup :=
  let publishRate := getEnvInt lookup "PUBLISH_RATE" 1000
  if connectOk = false then Startup.fatalConnect
  else
    match tickerPeriod publishRate with
    | none => Startup.panicDivideByZero
    | some d =>
      match NewTicker d with
      | none => Startup.panicNonPositiveInterval
      | some period => Startup.running period

end Publisher

/-! ## Subscriber (`subscriber/main.go`) -/

namespace Subscriber

/-- The wire message, as declared by the subscriber. -/
structure Message where
  ID : Nat
  Timestamp : Time
  Data : String
  Size : Int
  deriving DecidableEq, Repr

/-- Subscriber metrics. -/
structure Metrics where
  counter : Nat
  bytesReceived : Nat
  errorCount : Nat
  latencySum : Nat
  latencyCount : Nat
  startTime : Time
  lastReportTime : Time
  deriving DecidableEq, Repr

/-- The figures logged by `reportMetrics`. -/
structure Report where
  count : Nat
  rate : F64
  throughput : F64
  avgLatency : F64
  deriving DecidableEq, Repr

/-- Go `reportMetrics(m *Metrics)` of the subscriber; `now` is the clock
reading taken by `time.Since(m.startTime)`. `avgLatency` starts as the zero
value of `float64`. -/
def reportMetrics (m : Metrics) (now : Time) : Metrics × Report :=
  let elapsed := Since now m.startTime
  let count := m.counter
  let bytes := m.bytesReceived
  let latencySum := m.latencySum
  let latencyCount := m.latencyCount
  let rate := F64.div (F64.ofUint64 count) (F64.seconds elapsed)
  let throughput :=
    F64.div (F64.ofUint64 bytes) (F64.mul (F64.const (1024 * 1024)) (F64.seconds elapsed))
  let avgLatency :=
    if latencyCount > 0 then F64.div (F64.ofUint64 latencySum) (F64.ofUint64 latencyCount)
    else F64.const 0
  (m, { count := count, rate := rate, throughput := throughput, avgLatency := avgLatency })

/-- Go `json.Unmarshal(msg.Data, &message)` as a function of the payload
bytes (`none` stands for a non-nil error). A `time.Time` decoded from JSON
carries no monotonic clock reading. -/
structure Unmarshal where
  decode : List UInt8 → Option Message
  wallOnly : ∀ b msg, decode b = some msg → msg.Timestamp.mono = none

/-- What the environment supplies for one invocation of the subscribe
handler. -/
structure Delivery where
  /-- The raw payload `msg.Data`. -/
  data : List UInt8
  /-- The clock reading of `time.Since(message.Timestamp)`. -/
  now : Time
  /-- The clock reading of `time.Since(metrics.lastReportTime)`. -/
  sinceNow : Time
  /-- The clock reading of `time.Since(m.startTime)` in `reportMetrics`. -/
  reportNow : Time
  /-- The reading of `time.Now()` stored in `metrics.lastReportTime`. -/
  setNow : Time
  deriving DecidableEq, Repr

/-- The observable outcome of one handler invocation. -/
structure HandlerResult where
  /-- The metrics after the invocation. -/
  metrics : Metrics
  /-- The local variable `latency`, when it was computed. -/
  latency : Option Int
  /-- The periodic report, when one was logged. -/
  report : Option Report
  deriving DecidableEq, Repr

/-- The handler passed to `nc.Subscribe`. -/
def handler (u : Unmarshal) (m : Metrics) (d : Delivery) : HandlerResult :=
  let m1 := { m with counter := addUint64 m.counter 1 }
  let m2 := { m1 with bytesReceived := addUint64 m1.bytesReceived d.data.length }
  match u.decode d.data with
  | none =>
    { metrics := { m2 with errorCount := addUint64 m2.errorCount 1 },
      latency := none, report := none }
  | some message =>
    let latency := Microseconds (Since d.now message.Timestamp)
    let m3 := { m2 with latencySum := addUint64 m2.latencySum (toUint64 latency) }
    let m4 := { m3 with latencyCount := addUint64 m3.latencyCount 1 }
    if Since d.sinceNow m4.lastReportTime ≥ Second then
      let (m5, r) := reportMetrics m4 d.reportNow
      { metrics := { m5 with lastReportTime := d.setNow },
        latency := some latency, report := some r }
    else
      { metrics := m4, latency := some latency, report := none }

/-- The metrics built at the start of `main`. -/
def initMetrics (t0 t1 : Time) : Metrics :=
  { counter := 0, bytesReceived := 0, errorCount := 0, latencySum := 0, latencyCount := 0,
    startTime := t0, lastReportTime := t1 }

/-- The handler run over a finite sequence of deliveries. -/
def run (u : Unmarshal) (m : Metrics) : List Delivery → Metrics
  | [] => m
  | d :: ds => run u (handler u m d).metrics ds

end Subscriber

/-! ## Trace summaries and sample inputs -/

namespace Publisher

/-- Whether serialization and publish both succeed on a tick. -/
def succeeded (e : TickEvent) : Bool := e.tsJSON.isSome && e.publishOk

/-- Number of ticks whose serialization or publish failed. -/
def failures (es : List TickEvent) : Nat := es.countP (fun e => !succeeded e)

/-- Number of ticks whose serialization and publish both succeeded. -/
def successes (es : List TickEvent) : Nat := es.countP succeeded

/-- Byte length of the payload passed to `nc.Publish` in an iteration where
the call returned a nil error, 0 for any other iteration. -/
def sentLen (r : TickResult) : Nat :=
  if r.published then
    match r.handed with
    | some data => len data
    | none => 0
  else 0

/-- Sum of `sentLen` over a trace. -/
def sentBytes : List TickResult → Nat
  | [] => 0
  | r :: rs => sentLen r + sentBytes rs

/-- A clock reading `n` nanoseconds after the process start, carrying a
monotonic reading. -/
def clock (n : Int) : Time := { wall := 1700000000000000000 + n, mono := some n }

/-- A tick at `n` nanoseconds on which serialization and publish succeed. -/
def okTick (n : Int) : TickEvent :=
  { now := clock n, tsJSON := some "\"2023-11-14T22:13:20Z\"", publishOk := true,
    sinceNow := clock (n + 10), reportNow := clock (n + 20), setNow := clock (n + 30) }

/-- A tick at `n` nanoseconds on which `nc.Publish` returns an error. -/
def publishFailTick (n : Int) : TickEvent :=
  { okTick n with publishOk := false }

/-- A tick at `n` nanoseconds on which `json.Marshal` returns an error. -/
def marshalFailTick (n : Int) : TickEvent :=
  { okTick n with tsJSON := none }

/-- The metrics of a publisher started at clock reading 0. -/
def startMetrics : Metrics := initMetrics (clock 0) (clock 0)

end Publisher

namespace Publisher

/-- Four ticks: success, publish failure, serialization failure, success. -/
def sampleTicks : List TickEvent :=
  [okTick 1000000, publishFailTick 2000000, marshalFailTick 3000000, okTick 4000000]

/-- An environment in which only `PUBLISH_RATE` is set, to `v`. -/
def envRate (v : String) : String → Option String :=
  fun key => if key = "PUBLISH_RATE" then some v else none

end Publisher

namespace Subscriber

/-- Number of deliveries whose payload fails to deserialize. -/
def malformed (u : Unmarshal) (ds : List Delivery) : Nat :=
  ds.countP (fun d => (u.decode d.data).isNone)

/-- Sum of the raw payload lengths of a sequence of deliveries. -/
def rawBytes : List Delivery → Nat
  | [] => 0
  | d :: ds => d.data.length + rawBytes ds

/-- A clock reading `n` nanoseconds after the process start, carrying a
monotonic reading; the wall clock counts nanoseconds since the Unix epoch. -/
def clock (n : Int) : Time := { wall := 1700000000000000000 + n, mono := some n }

/-- The zero `Message`, which `json.Unmarshal` leaves untouched for the
payload `{}`: its `Timestamp` is the zero `time.Time`, January 1 of year 1,
62135596800 seconds before the Unix epoch. -/
def zeroMessage : Message :=
  { ID := 0, Timestamp := { wall := -62135596800000000000, mono := none }, Data := "", Size := 0 }

/-- The bytes of an ASCII text. -/
def ascii (s : String) : List UInt8 := s.toList.map (fun c => c.toNat.toUInt8)

/-- A payload as the publisher sends it: message 1, stamped 250 microseconds
after the process start (Unix time 1700000000.00025 s). -/
def stampedPayload : List UInt8 :=
  ascii ("\x7b\"id\":1,\"timestamp\":\"2023-11-14T22:13:20.00025Z\"," ++
    "\"data\":\"Mensaje 1 del publicador Go\",\"size\":0\x7d")

/-- The message that `json.Unmarshal` decodes from `stampedPayload`. -/
def stampedMessage : Message :=
  { ID := 1, Timestamp := { wall := 1700000000000250000, mono := none },
    Data := "Mensaje 1 del publicador Go", Size := 0 }

/-- A payload as the publisher sends it: message 2, stamped 2900 microseconds
after the process start (Unix time 1700000000.0029 s). -/
def secondPayload : List UInt8 :=
  ascii ("\x7b\"id\":2,\"timestamp\":\"2023-11-14T22:13:20.0029Z\"," ++
    "\"data\":\"Mensaje 2 del publicador Go\",\"size\":0\x7d")

/-- The message that `json.Unmarshal` decodes from `secondPayload`. -/
def secondMessage : Message :=
  { ID := 2, Timestamp := { wall := 1700000000002900000, mono := none },
    Data := "Mensaje 2 del publicador Go", Size := 0 }

/-- The payload `no`, which is not JSON: `json.Unmarshal` returns a syntax
error on it. -/
def malformedPayload : List UInt8 := ascii "no"

/-- The results of `json.Unmarshal` on the sample payloads: `{}` and `null`
leave the zero message untouched, `stampedPayload` and `secondPayload` decode
to their messages. Every payload outside this table is answered with an
error, as `json.Unmarshal` answers `malformedPayload`; the table is not a JSON
parser and is applied below to these five payloads only. -/
def sampleDecode (b : List UInt8) : Option Message :=
  if b = ascii "\x7b\x7d" ∨ b = ascii "null" then some zeroMessage
  else if b = stampedPayload then some stampedMessage
  else if b = secondPayload then some secondMessage
  else none

/-- The table `sampleDecode` with the proof that its timestamps carry no
monotonic reading. -/
def sampleUnmarshal : Unmarshal where
  decode := sampleDecode
  wallOnly := by
    intro b msg h
    unfold sampleDecode at h
    split at h
    · cases h; rfl
    · split at h
      · cases h; rfl
      · split at h
        · cases h; rfl
        · cases h

/-- A delivery of `data` received `n` nanoseconds after the process start. -/
def deliveryAt (n : Int) (data : List UInt8) : Delivery :=
  { data := data, now := clock n, sinceNow := clock (n + 10), reportNow := clock (n + 20),
    setNow := clock (n + 30) }

/-- Three deliveries: message 1, a malformed payload, message 2. -/
def sampleDeliveries : List Delivery :=
  [deliveryAt 1000000 stampedPayload, deliveryAt 2000000 malformedPayload,
    deliveryAt 3000000 secondPayload]

/-- The metrics of a subscriber started at clock reading 0. -/
def startMetrics : Metrics := initMetrics (clock 0) (clock 0)

/-- A delivery of the payload `{}`, one millisecond after the process start. -/
def emptyObjectDelivery : Delivery := deliveryAt 1000000 (ascii "\x7b\x7d")

/-- The delivery of `stampedPayload` 400 microseconds after the process start,
150 microseconds after the timestamp of the message. -/
def stampedDelivery : Delivery := deliveryAt 400000 stampedPayload

end Subscriber

/-! ## Lemmas on machine arithmetic -/

theorem addUint64_of_lt {x d : Nat} (h : x + d < u64) : addUint64 x d = x + d := by
  unfold addUint64
  exact Nat.mod_eq_of_lt h

/-! ## Publisher: one tick -/

namespace Publisher

theorem tick_counter (m : Metrics) (e : TickEvent) :
    (tick m e).metrics.counter = addUint64 m.counter 1 := by
  unfold tick
  cases e.tsJSON <;> simp only [jsonMarshal, reportMetrics]
  split
  · rfl
  · split <;> rfl

theorem tick_marshalled_ID (m : Metrics) (e : TickEvent) :
    (tick m e).marshalled.ID = addUint64 m.counter 1 := by
  unfold tick
  cases e.tsJSON <;> simp only [jsonMarshal, reportMetrics]
  split
  · rfl
  · split <;> rfl

theorem tick_msg_ID (m : Metrics) (e : TickEvent) :
    (tick m e).msg.ID = addUint64 m.counter 1 := by
  unfold tick
  cases e.tsJSON <;> simp only [jsonMarshal, reportMetrics]
  split
  · rfl
  · split <;> rfl

theorem tick_published (m : Metrics) (e : TickEvent) :
    (tick m e).published = succeeded e := by
  unfold tick succeeded
  cases e.tsJSON <;> simp only [jsonMarshal, reportMetrics]
  · rfl
  · cases e.publishOk
    · rfl
    · simp only [Bool.true_eq_false, if_false]
      split <;> rfl

theorem tick_bytesSent (m : Metrics) (e : TickEvent) :
    (tick m e).metrics.bytesSent =
      if succeeded e then addUint64 m.bytesSent (sentLen (tick m e)) else m.bytesSent := by
  unfold sentLen tick succeeded
  cases e.tsJSON <;> simp only [jsonMarshal, reportMetrics]
  · rfl
  · cases e.publishOk
    · rfl
    · simp only [Bool.true_eq_false, if_false]
      split <;> rfl

theorem tick_errorCount (m : Metrics) (e : TickEvent) :
    (tick m e).metrics.errorCount =
      if succeeded e then m.errorCount else addUint64 m.errorCount 1 := by
  unfold tick succeeded
  cases e.tsJSON <;> simp only [jsonMarshal, reportMetrics]
  · rfl
  · cases e.publishOk
    · rfl
    · simp only [Bool.true_eq_false, if_false]
      split <;> rfl

theorem tick_sentLen_of_failed (m : Metrics) (e : TickEvent) (h : succeeded e = false) :
    sentLen (tick m e) = 0 := by
  unfold sentLen
  rw [tick_published, h]
  rfl

theorem tick_report_of_failed (m : Metrics) (e : TickEvent) (h : succeeded e = false) :
    (tick m e).report = none ∧ (tick m e).metrics.lastReportTime = m.lastReportTime := by
  unfold succeeded at h
  unfold tick
  cases hts : e.tsJSON with
  | none => exact ⟨rfl, rfl⟩
  | some t =>
    rw [hts] at h
    have hp : e.publishOk = false := by simpa using h
    simp only [jsonMarshal, hp, if_true]
    exact ⟨trivial, trivial⟩

theorem tick_report_of_succeeded (m : Metrics) (e : TickEvent) (h : succeeded e = true) :
    ((tick m e).report ≠ none ↔ Since e.sinceNow m.lastReportTime ≥ Second) ∧
    (tick m e).metrics.lastReportTime =
      (if Since e.sinceNow m.lastReportTime ≥ Second then e.setNow else m.lastReportTime) := by
  unfold succeeded at h
  unfold tick
  cases hts : e.tsJSON with
  | none => rw [hts] at h; cases h
  | some t =>
    rw [hts] at h
    have hp : e.publishOk = true := by simpa using h
    simp only [jsonMarshal, hp, reportMetrics, Bool.true_eq_false, if_false]
    by_cases hc : Since e.sinceNow m.lastReportTime ≥ Second
    · simp only [hc, if_true]
      exact ⟨⟨fun _ => trivial, fun _ => by simp⟩, trivial⟩
    · simp only [hc, if_false]
      exact ⟨⟨fun hn => absurd rfl hn, fun hx => absurd hx (by simp)⟩, trivial⟩

/-! ## Publisher: runs -/

theorem run_length (es : List TickEvent) (m : Metrics) : (run m es).2.length = es.length := by
  induction es generalizing m with
  | nil => rfl
  | cons e es ih => simp [run, ih]

theorem run_published (es : List TickEvent) (m : Metrics) :
    (run m es).2.map (fun r => r.published) = es.map succeeded := by
  induction es generalizing m with
  | nil => rfl
  | cons e es ih => simp [run, ih, tick_published]

theorem run_counter (es : List TickEvent) (m : Metrics) (hm : m.counter < u64) :
    (run m es).1.counter = (m.counter + es.length) % u64 := by
  induction es generalizing m with
  | nil => simpa [run] using (Nat.mod_eq_of_lt hm).symm
  | cons e es ih =>
    have hlt : (tick m e).metrics.counter < u64 := by
      rw [tick_counter]; exact Nat.mod_lt _ (by decide)
    simp only [run, List.length_cons]
    rw [ih _ hlt, tick_counter, addUint64, Nat.mod_add_mod]
    congr 1
    omega

theorem run_ids (es : List TickEvent) (m : Metrics) (k : Nat) (r : TickResult)
    (h : (run m es).2[k]? = some r) :
    r.marshalled.ID = (m.counter + k + 1) % u64 ∧ r.msg.ID = (m.counter + k + 1) % u64 := by
  induction es generalizing m k with
  | nil => simp [run] at h
  | cons e es ih =>
    cases k with
    | zero =>
      simp only [run, List.getElem?_cons_zero, Option.some.injEq] at h
      subst h
      exact ⟨tick_marshalled_ID m e, tick_msg_ID m e⟩
    | succ k =>
      simp only [run, List.getElem?_cons_succ] at h
      have := ih _ _ h
      rw [tick_counter, addUint64, Nat.add_assoc ((m.counter + 1) % u64), Nat.mod_add_mod] at this
      have e1 : m.counter + 1 + (k + 1) = m.counter + (k + 1) + 1 := by omega
      rw [e1] at this
      exact this

theorem run_bytesSent (es : List TickEvent) (m : Metrics) (hm : m.bytesSent < u64) :
    (run m es).1.bytesSent = (m.bytesSent + sentBytes (run m es).2) % u64 := by
  induction es generalizing m with
  | nil => simpa [run, sentBytes] using (Nat.mod_eq_of_lt hm).symm
  | cons e es ih =>
    have hstep : (tick m e).metrics.bytesSent = (m.bytesSent + sentLen (tick m e)) % u64 := by
      rw [tick_bytesSent]
      cases hs : succeeded e
      · rw [tick_sentLen_of_failed m e hs]
        simpa using (Nat.mod_eq_of_lt hm).symm
      · rfl
    have hlt : (tick m e).metrics.bytesSent < u64 := by
      rw [hstep]; exact Nat.mod_lt _ (by decide)
    simp only [run, sentBytes]
    rw [ih _ hlt, hstep, Nat.mod_add_mod, Nat.add_assoc]

theorem run_errorCount (es : List TickEvent) (m : Metrics) (hm : m.errorCount < u64) :
    (run m es).1.errorCount = (m.errorCount + failures es) % u64 := by
  induction es generalizing m with
  | nil => simpa [run, failures] using (Nat.mod_eq_of_lt hm).symm
  | cons e es ih =>
    have hstep : (tick m e).metrics.errorCount =
        (m.errorCount + (if succeeded e then 0 else 1)) % u64 := by
      rw [tick_errorCount]
      cases hs : succeeded e
      · rfl
      · simpa using (Nat.mod_eq_of_lt hm).symm
    have hlt : (tick m e).metrics.errorCount < u64 := by
      rw [hstep]; exact Nat.mod_lt _ (by decide)
    simp only [run]
    rw [ih _ hlt, hstep, Nat.mod_add_mod]
    congr 1
    unfold failures
    rw [List.countP_cons]
    cases succeeded e <;> simp
    omega

theorem successes_add_failures (es : List TickEvent) :
    successes es + failures es = es.length := by
  unfold successes failures
  induction es with
  | nil => rfl
  | cons e es ih =>
    rw [List.countP_cons, List.countP_cons, List.length_cons]
    cases succeeded e <;> simp <;> omega

end Publisher

/-! ## Publisher: the claims -/

namespace Publisher

/-- C1: in a run of fewer than 2^64 ticks from the initial metrics, every tick
constructs a message, and the message of the k-th tick (counted from 1) has
id k, whatever the serialization and publish outcomes of the ticks: the first
id is 1 and each id is the previous one plus 1. -/
theorem publisher_ids_sequential (t0 t1 : Time) (es : List TickEvent) (hlen : es.length < u64) :
    (run (initMetrics t0 t1) es).2.length = es.length ∧
    (∀ (k : Nat) (r : TickResult), (run (initMetrics t0 t1) es).2[k]? = some r →
      r.marshalled.ID = k + 1 ∧ r.msg.ID = k + 1) ∧
    (∀ (k : Nat) (r r2 : TickResult), (run (initMetrics t0 t1) es).2[k]? = some r →
      (run (initMetrics t0 t1) es).2[k + 1]? = some r2 →
      r2.marshalled.ID = r.marshalled.ID + 1) := by
  have key : ∀ (k : Nat) (r : TickResult), (run (initMetrics t0 t1) es).2[k]? = some r →
      r.marshalled.ID = k + 1 ∧ r.msg.ID = k + 1 := by
    intro k r h
    have hk : k < es.length := by
      have := (List.getElem?_eq_some_iff.mp h).1
      rwa [run_length] at this
    have hid := run_ids es (initMetrics t0 t1) k r h
    have hmod : ((initMetrics t0 t1).counter + k + 1) % u64 = k + 1 := by
      have h0 : (initMetrics t0 t1).counter = 0 := rfl
      rw [h0, Nat.zero_add]
      exact Nat.mod_eq_of_lt (by omega)
    rw [hmod] at hid
    exact hid
  refine ⟨run_length es _, key, ?_⟩
  intro k r r2 h h2
  rw [(key k r h).1, (key (k + 1) r2 h2).1]

/-- Witness of C1 on four ticks with mixed outcomes. -/
theorem publisher_ids_sequential_witness :
    (sampleTicks.length < u64 ∧
      (run (initMetrics (clock 0) (clock 0)) sampleTicks).2.map (fun r => r.marshalled.ID) =
        [1, 2, 3, 4] ∧
      (run (initMetrics (clock 0) (clock 0)) sampleTicks).2.map (fun r => r.published) =
        [true, false, false, true]) ∧
    (run (initMetrics (clock 0) (clock 0)) sampleTicks).2.length = sampleTicks.length ∧
    (∀ (k : Nat) (r : TickResult),
      (run (initMetrics (clock 0) (clock 0)) sampleTicks).2[k]? = some r →
      r.marshalled.ID = k + 1 ∧ r.msg.ID = k + 1) ∧
    (∀ (k : Nat) (r r2 : TickResult),
      (run (initMetrics (clock 0) (clock 0)) sampleTicks).2[k]? = some r →
      (run (initMetrics (clock 0) (clock 0)) sampleTicks).2[k + 1]? = some r2 →
      r2.marshalled.ID = r.marshalled.ID + 1) :=
  ⟨⟨by decide, by decide, by decide⟩,
    publisher_ids_sequential (clock 0) (clock 0) sampleTicks (by decide)⟩

/-- C2: after a run from the initial metrics (with fewer than 2^64 ticks and
fewer than 2^64 bytes sent, so that no `uint64` field wraps), `bytesSent` is
the sum of the payload lengths over the ticks on which serialization and
publish both succeeded, and `errorCount` is the number of ticks on which one
of them failed; the trace marks a tick as published exactly when both
succeeded; a failed tick leaves `bytesSent` unchanged and adds 1 to
`errorCount` (a `uint64` addition). -/
theorem publisher_bytes_and_errors (t0 t1 : Time) (es : List TickEvent)
    (hlen : es.length < u64) (hbytes : sentBytes (run (initMetrics t0 t1) es).2 < u64) :
    (run (initMetrics t0 t1) es).1.bytesSent = sentBytes (run (initMetrics t0 t1) es).2 ∧
    (run (initMetrics t0 t1) es).1.errorCount = failures es ∧
    (run (initMetrics t0 t1) es).2.map (fun r => r.published) = es.map succeeded ∧
    (∀ (m : Metrics) (e : TickEvent), succeeded e = false →
      sentLen (tick m e) = 0 ∧ (tick m e).metrics.bytesSent = m.bytesSent ∧
      (tick m e).metrics.errorCount = addUint64 m.errorCount 1) := by
  refine ⟨?_, ?_, run_published es _, ?_⟩
  · rw [run_bytesSent es _ (show 0 < u64 by decide)]
    have h0 : (initMetrics t0 t1).bytesSent = 0 := rfl
    rw [h0, Nat.zero_add]
    exact Nat.mod_eq_of_lt hbytes
  · rw [run_errorCount es _ (show 0 < u64 by decide)]
    have h0 : (initMetrics t0 t1).errorCount = 0 := rfl
    rw [h0, Nat.zero_add]
    apply Nat.mod_eq_of_lt
    have := successes_add_failures es
    omega
  · intro m e h
    refine ⟨tick_sentLen_of_failed m e h, ?_, ?_⟩
    · rw [tick_bytesSent, h]; rfl
    · rw [tick_errorCount, h]; rfl

/-- Witness of C2: of four ticks, the two successful ones send 89 bytes each
and the two failed ones are counted as errors. -/
theorem publisher_bytes_and_errors_witness :
    (sampleTicks.length < u64 ∧ sentBytes (run (initMetrics (clock 0) (clock 0)) sampleTicks).2 < u64) ∧
    (run (initMetrics (clock 0) (clock 0)) sampleTicks).1.bytesSent = 178 ∧
    (run (initMetrics (clock 0) (clock 0)) sampleTicks).1.errorCount = 2 ∧
    failures sampleTicks = 2 ∧
    (tick startMetrics (publishFailTick 2000000)).metrics.bytesSent = 0 ∧
    (tick startMetrics (publishFailTick 2000000)).metrics.errorCount = 1 :=
  have h := publisher_bytes_and_errors (clock 0) (clock 0) sampleTicks (by decide) (by decide)
  have hf := h.2.2.2 startMetrics (publishFailTick 2000000) (by decide)
  ⟨⟨by decide, by decide⟩, h.1.trans (by decide), h.2.1.trans (by decide), by decide,
    hf.2.1.trans (by decide), hf.2.2.trans (by decide)⟩

/-- C3, evaluated on a run of one tick whose publish fails: no message was
successfully processed and `bytesSent` stays 0, yet `counter` is 1 and the
final report logs 1 as the number of messages sent; `errorCount` is 1. -/
theorem publisher_counter_includes_failures :
    succeeded (publishFailTick 1000000) = false ∧
    successes [publishFailTick 1000000] = 0 ∧
    (run startMetrics [publishFailTick 1000000]).2.map (fun r => r.published) = [false] ∧
    (run startMetrics [publishFailTick 1000000]).1.bytesSent = 0 ∧
    (run startMetrics [publishFailTick 1000000]).1.errorCount = 1 ∧
    (run startMetrics [publishFailTick 1000000]).1.counter = 1 ∧
    (reportMetrics (run startMetrics [publishFailTick 1000000]).1 (clock 5000000)).2.count = 1 ∧
    (run startMetrics [publishFailTick 1000000]).1.counter ≠ successes [publishFailTick 1000000] := by
  decide

/-- C8, evaluated on the first tick of a run: the payload handed to
`nc.Publish` was serialized from a message whose `Size` is still 0, so it
carries `"size":0` while its length is 89 bytes; only the local variable
`msg` receives the length, after the serialization. -/
theorem publisher_payload_size_is_zero :
    (tick startMetrics (okTick 1000000)).handed =
      some ("\x7b\"id\":1,\"timestamp\":\"2023-11-14T22:13:20Z\"," ++
        "\"data\":\"Mensaje 1 del publicador Go\",\"size\":0\x7d") ∧
    (tick startMetrics (okTick 1000000)).handed =
      jsonMarshal (okTick 1000000).tsJSON (tick startMetrics (okTick 1000000)).marshalled ∧
    (tick startMetrics (okTick 1000000)).marshalled.Size = 0 ∧
    (tick startMetrics (okTick 1000000)).published = true ∧
    sentLen (tick startMetrics (okTick 1000000)) = 89 ∧
    (tick startMetrics (okTick 1000000)).msg.Size = 89 := by
  decide

/-- C7, evaluated on three configurations: with `PUBLISH_RATE=0` the start-up
reaches the integer division by zero, and with `PUBLISH_RATE=2000000000` or
`PUBLISH_RATE=-5` it reaches `time.NewTicker` with a non-positive period
(0 and -200000000 nanoseconds); `getEnvInt` returns these rates unchecked. -/
theorem publisher_rate_not_validated :
    getEnvInt (envRate "0") "PUBLISH_RATE" 1000 = 0 ∧
    startup (envRate "0") true = Startup.panicDivideByZero ∧
    getEnvInt (envRate "2000000000") "PUBLISH_RATE" 1000 = 2000000000 ∧
    tickerPeriod 2000000000 = some 0 ∧
    startup (envRate "2000000000") true = Startup.panicNonPositiveInterval ∧
    getEnvInt (envRate "-5") "PUBLISH_RATE" 1000 = -5 ∧
    tickerPeriod (-5) = some (-200000000) ∧
    startup (envRate "-5") true = Startup.panicNonPositiveInterval ∧
    startup (envRate "1000") true = Startup.running 1000000 := by
  decide

end Publisher

/-! ## Subscriber: one handler invocation -/

namespace Subscriber

theorem handler_counter (u : Unmarshal) (m : Metrics) (d : Delivery) :
    (handler u m d).metrics.counter = addUint64 m.counter 1 := by
  unfold handler
  cases u.decode d.data <;> simp only [reportMetrics]
  split <;> rfl

theorem handler_bytesReceived (u : Unmarshal) (m : Metrics) (d : Delivery) :
    (handler u m d).metrics.bytesReceived = addUint64 m.bytesReceived d.data.length := by
  unfold handler
  cases u.decode d.data <;> simp only [reportMetrics]
  split <;> rfl

theorem handler_errorCount (u : Unmarshal) (m : Metrics) (d : Delivery) :
    (handler u m d).metrics.errorCount =
      if (u.decode d.data).isNone then addUint64 m.errorCount 1 else m.errorCount := by
  unfold handler
  cases u.decode d.data <;> simp only [reportMetrics, Option.isNone]
  · rfl
  · split <;> rfl

theorem handler_latencyCount (u : Unmarshal) (m : Metrics) (d : Delivery) :
    (handler u m d).metrics.latencyCount =
      if (u.decode d.data).isNone then m.latencyCount else addUint64 m.latencyCount 1 := by
  unfold handler
  cases u.decode d.data <;> simp only [reportMetrics, Option.isNone]
  · rfl
  · split <;> rfl

theorem handler_of_malformed (u : Unmarshal) (m : Metrics) (d : Delivery)
    (h : u.decode d.data = none) :
    (handler u m d).metrics.latencySum = m.latencySum ∧ (handler u m d).latency = none ∧
    (handler u m d).report = none ∧
    (handler u m d).metrics.lastReportTime = m.lastReportTime := by
  unfold handler
  rw [h]
  exact ⟨rfl, rfl, rfl, rfl⟩

theorem handler_of_decoded (u : Unmarshal) (m : Metrics) (d : Delivery) (msg : Message)
    (h : u.decode d.data = some msg) :
    (handler u m d).latency = some (Microseconds (Since d.now msg.Timestamp)) ∧
    (handler u m d).metrics.latencySum =
      addUint64 m.latencySum (toUint64 (Microseconds (Since d.now msg.Timestamp))) := by
  unfold handler
  rw [h]
  simp only [reportMetrics]
  split <;> exact ⟨rfl, rfl⟩

/-! ## Subscriber: runs -/

theorem deliveries_counter (u : Unmarshal) (ds : List Delivery) (m : Metrics) (hm : m.counter < u64) :
    (run u m ds).counter = (m.counter + ds.length) % u64 := by
  induction ds generalizing m with
  | nil => simpa [run] using (Nat.mod_eq_of_lt hm).symm
  | cons d ds ih =>
    have hlt : (handler u m d).metrics.counter < u64 := by
      rw [handler_counter]; exact Nat.mod_lt _ (by decide)
    simp only [run, List.length_cons]
    rw [ih _ hlt, handler_counter, addUint64, Nat.mod_add_mod]
    congr 1
    omega

theorem deliveries_bytesReceived (u : Unmarshal) (ds : List Delivery) (m : Metrics)
    (hm : m.bytesReceived < u64) :
    (run u m ds).bytesReceived = (m.bytesReceived + rawBytes ds) % u64 := by
  induction ds generalizing m with
  | nil => simpa [run, rawBytes] using (Nat.mod_eq_of_lt hm).symm
  | cons d ds ih =>
    have hlt : (handler u m d).metrics.bytesReceived < u64 := by
      rw [handler_bytesReceived]; exact Nat.mod_lt _ (by decide)
    simp only [run, rawBytes]
    rw [ih _ hlt, handler_bytesReceived, addUint64, Nat.mod_add_mod, Nat.add_assoc]

theorem deliveries_errorCount (u : Unmarshal) (ds : List Delivery) (m : Metrics)
    (hm : m.errorCount < u64) :
    (run u m ds).errorCount = (m.errorCount + malformed u ds) % u64 := by
  induction ds generalizing m with
  | nil => simpa [run, malformed] using (Nat.mod_eq_of_lt hm).symm
  | cons d ds ih =>
    have hstep : (handler u m d).metrics.errorCount =
        (m.errorCount + (if (u.decode d.data).isNone then 1 else 0)) % u64 := by
      rw [handler_errorCount]
      cases hs : (u.decode d.data).isNone
      · simpa using (Nat.mod_eq_of_lt hm).symm
      · rfl
    have hlt : (handler u m d).metrics.errorCount < u64 := by
      rw [hstep]; exact Nat.mod_lt _ (by decide)
    simp only [run]
    rw [ih _ hlt, hstep, Nat.mod_add_mod]
    congr 1
    unfold malformed
    rw [List.countP_cons]
    cases (u.decode d.data).isNone <;> simp
    omega

theorem deliveries_latencyCount (u : Unmarshal) (ds : List Delivery) (m : Metrics)
    (hm : m.latencyCount < u64) :
    (run u m ds).latencyCount = (m.latencyCount + (ds.length - malformed u ds)) % u64 := by
  induction ds generalizing m with
  | nil => simpa [run, malformed] using (Nat.mod_eq_of_lt hm).symm
  | cons d ds ih =>
    have hstep : (handler u m d).metrics.latencyCount =
        (m.latencyCount + (if (u.decode d.data).isNone then 0 else 1)) % u64 := by
      rw [handler_latencyCount]
      cases hs : (u.decode d.data).isNone
      · rfl
      · simpa using (Nat.mod_eq_of_lt hm).symm
    have hlt : (handler u m d).metrics.latencyCount < u64 := by
      rw [hstep]; exact Nat.mod_lt _ (by decide)
    have hle : malformed u ds ≤ ds.length := List.countP_le_length _
    simp only [run]
    rw [ih _ hlt, hstep, Nat.mod_add_mod]
    congr 1
    unfold malformed at hle ⊢
    rw [List.countP_cons, List.length_cons]
    cases (u.decode d.data).isNone <;> simp
    omega

/-! ## Subscriber: the claims -/

theorem toUint64_of_nonneg {v : Int} (h0 : 0 ≤ v) (h1 : v < 2 ^ 64) : toUint64 v = v.toNat := by
  unfold toUint64
  rw [Int.emod_eq_of_lt h0 h1]

theorem Since_wall (now t : Time) (ht : t.mono = none)
    (hr : minDuration ≤ now.wall - t.wall ∧ now.wall - t.wall ≤ maxDuration) :
    Since now t = now.wall - t.wall := by
  have hs : saturate (now.wall - t.wall) = now.wall - t.wall := by
    unfold saturate
    rw [if_neg (by omega), if_neg (by omega)]
  unfold Since Time.Sub
  rw [ht]
  cases now.mono <;> exact hs

/-- C4: every handler invocation adds 1 to `counter` and the raw payload
length to `bytesReceived` (`uint64` additions), also when the payload fails
to deserialize; in that case `errorCount` receives 1, `latencySum` and
`latencyCount` are unchanged and no latency sample is taken. After a run of
fewer than 2^64 deliveries from the initial metrics, `counter` is the number
of deliveries, `errorCount` the number of malformed payloads and
`latencyCount` the number of deliveries minus the malformed ones. -/
theorem subscriber_handler_counts (u : Unmarshal) (t0 t1 : Time) (ds : List Delivery)
    (hlen : ds.length < u64) :
    (∀ (m : Metrics) (d : Delivery),
      (handler u m d).metrics.counter = addUint64 m.counter 1 ∧
      (handler u m d).metrics.bytesReceived = addUint64 m.bytesReceived d.data.length) ∧
    (∀ (m : Metrics) (d : Delivery), u.decode d.data = none →
      (handler u m d).metrics.errorCount = addUint64 m.errorCount 1 ∧
      (handler u m d).metrics.latencySum = m.latencySum ∧
      (handler u m d).metrics.latencyCount = m.latencyCount ∧
      (handler u m d).latency = none) ∧
    (run u (initMetrics t0 t1) ds).counter = ds.length ∧
    (run u (initMetrics t0 t1) ds).errorCount = malformed u ds ∧
    (run u (initMetrics t0 t1) ds).latencyCount = ds.length - malformed u ds ∧
    (run u (initMetrics t0 t1) ds).bytesReceived = rawBytes ds % u64 := by
  have hle : malformed u ds ≤ ds.length := List.countP_le_length _
  refine ⟨fun m d => ⟨handler_counter u m d, handler_bytesReceived u m d⟩, ?_, ?_, ?_, ?_, ?_⟩
  · intro m d h
    have hm := handler_of_malformed u m d h
    refine ⟨?_, hm.1, ?_, hm.2.1⟩
    · rw [handler_errorCount, h]; rfl
    · rw [handler_latencyCount, h]; rfl
  · rw [deliveries_counter u ds _ (show 0 < u64 by decide)]
    have h0 : (initMetrics t0 t1).counter = 0 := rfl
    rw [h0, Nat.zero_add]
    exact Nat.mod_eq_of_lt hlen
  · rw [deliveries_errorCount u ds _ (show 0 < u64 by decide)]
    have h0 : (initMetrics t0 t1).errorCount = 0 := rfl
    rw [h0, Nat.zero_add]
    exact Nat.mod_eq_of_lt (by omega)
  · rw [deliveries_latencyCount u ds _ (show 0 < u64 by decide)]
    have h0 : (initMetrics t0 t1).latencyCount = 0 := rfl
    rw [h0, Nat.zero_add]
    exact Nat.mod_eq_of_lt (by omega)
  · rw [deliveries_bytesReceived u ds _ (show 0 < u64 by decide)]
    have h0 : (initMetrics t0 t1).bytesReceived = 0 := rfl
    rw [h0, Nat.zero_add]

/-- Witness of C4: three deliveries (two messages as the publisher sends them
and the malformed payload `no`) end with `counter = 3`, `errorCount = 1`,
`latencyCount = 2` and 191 bytes received. -/
theorem subscriber_handler_counts_witness :
    sampleDeliveries.length < u64 ∧
    sampleDeliveries.map (fun d => sampleUnmarshal.decode d.data) =
      [some stampedMessage, none, some secondMessage] ∧
    sampleUnmarshal.decode (deliveryAt 2000000 malformedPayload).data = none ∧
    malformed sampleUnmarshal sampleDeliveries = 1 ∧
    (handler sampleUnmarshal startMetrics (deliveryAt 2000000 malformedPayload)).metrics.counter = 1 ∧
    (handler sampleUnmarshal startMetrics (deliveryAt 2000000 malformedPayload)).metrics.bytesReceived = 2 ∧
    (handler sampleUnmarshal startMetrics (deliveryAt 2000000 malformedPayload)).metrics.errorCount = 1 ∧
    (handler sampleUnmarshal startMetrics (deliveryAt 2000000 malformedPayload)).metrics.latencyCount = 0 ∧
    (run sampleUnmarshal (initMetrics (clock 0) (clock 0)) sampleDeliveries).counter = 3 ∧
    (run sampleUnmarshal (initMetrics (clock 0) (clock 0)) sampleDeliveries).errorCount = 1 ∧
    (run sampleUnmarshal (initMetrics (clock 0) (clock 0)) sampleDeliveries).latencyCount = 2 ∧
    (run sampleUnmarshal (initMetrics (clock 0) (clock 0)) sampleDeliveries).bytesReceived = 191 :=
  have h := subscriber_handler_counts sampleUnmarshal (clock 0) (clock 0) sampleDeliveries (by decide)
  have hd := h.1 startMetrics (deliveryAt 2000000 malformedPayload)
  have hb := h.2.1 startMetrics (deliveryAt 2000000 malformedPayload) (by decide)
  ⟨by decide, by decide, by decide, by decide, hd.1.trans (by decide), hd.2.trans (by decide),
    hb.1.trans (by decide), hb.2.2.1.trans (by decide), h.2.2.1.trans (by decide),
    h.2.2.2.1.trans (by decide), h.2.2.2.2.1.trans (by decide), h.2.2.2.2.2.trans (by decide)⟩

/-- C5, as the code has it: for a successfully deserialized message whose
timestamp is not later than the receive time and at most `maxDuration`
(2^63 - 1 nanoseconds, about 292 years) before it, and with `latencySum` not
overflowing 64 bits, the handler takes as latency sample the receive time
minus the timestamp in whole microseconds, which is not negative, adds
exactly that sample to `latencySum`, adds 1 to `latencyCount` (a `uint64`
addition) and leaves `errorCount` unchanged. -/
theorem subscriber_latency_sample (u : Unmarshal) (m : Metrics) (d : Delivery) (msg : Message)
    (hdec : u.decode d.data = some msg)
    (hle : msg.Timestamp.wall ≤ d.now.wall)
    (hrange : d.now.wall - msg.Timestamp.wall ≤ maxDuration)
    (hsum : m.latencySum + ((d.now.wall - msg.Timestamp.wall) / 1000).toNat < u64) :
    (handler u m d).latency = some ((d.now.wall - msg.Timestamp.wall) / 1000) ∧
    0 ≤ (d.now.wall - msg.Timestamp.wall) / 1000 ∧
    (handler u m d).metrics.latencySum =
      m.latencySum + ((d.now.wall - msg.Timestamp.wall) / 1000).toNat ∧
    (handler u m d).metrics.latencyCount = addUint64 m.latencyCount 1 ∧
    (handler u m d).metrics.errorCount = m.errorCount := by
  have hmono := u.wallOnly d.data msg hdec
  have hd0 : 0 ≤ d.now.wall - msg.Timestamp.wall := by omega
  have hsince : Since d.now msg.Timestamp = d.now.wall - msg.Timestamp.wall := by
    apply Since_wall _ _ hmono
    constructor
    · have : minDuration ≤ 0 := by decide
      omega
    · exact hrange
  have hmicro : Microseconds (Since d.now msg.Timestamp) =
      (d.now.wall - msg.Timestamp.wall) / 1000 := by
    rw [hsince]
    unfold Microseconds
    exact Int.tdiv_eq_ediv hd0 (by decide)
  have hq0 : 0 ≤ (d.now.wall - msg.Timestamp.wall) / 1000 := Int.ediv_nonneg hd0 (by decide)
  have hq1 : (d.now.wall - msg.Timestamp.wall) / 1000 < 2 ^ 64 := by
    have hu : u64 = 18446744073709551616 := by decide
    rw [hu] at hsum
    omega
  have hdecoded := handler_of_decoded u m d msg hdec
  rw [hmicro] at hdecoded
  refine ⟨hdecoded.1, hq0, ?_, ?_, ?_⟩
  · rw [hdecoded.2, toUint64_of_nonneg hq0 hq1]
    exact addUint64_of_lt hsum
  · rw [handler_latencyCount, hdec]; rfl
  · rw [handler_errorCount, hdec]; rfl

/-- Witness of the amended C5: a message stamped 150 microseconds before its
reception adds 150 to `latencySum` and 1 to `latencyCount`. -/
theorem subscriber_latency_sample_witness :
    (sampleUnmarshal.decode stampedDelivery.data = some stampedMessage ∧
      stampedMessage.Timestamp.wall ≤ stampedDelivery.now.wall ∧
      stampedDelivery.now.wall - stampedMessage.Timestamp.wall ≤ maxDuration ∧
      startMetrics.latencySum +
        ((stampedDelivery.now.wall - stampedMessage.Timestamp.wall) / 1000).toNat < u64) ∧
    (handler sampleUnmarshal startMetrics stampedDelivery).latency = some 150 ∧
    (handler sampleUnmarshal startMetrics stampedDelivery).metrics.latencySum = 150 ∧
    (handler sampleUnmarshal startMetrics stampedDelivery).metrics.latencyCount = 1 ∧
    (handler sampleUnmarshal startMetrics stampedDelivery).metrics.errorCount = 0 :=
  have h := subscriber_latency_sample sampleUnmarshal startMetrics stampedDelivery stampedMessage
    (by decide) (by decide) (by decide) (by decide)
  ⟨⟨by decide, by decide, by decide, by decide⟩, h.1.trans (by decide),
    h.2.2.1.trans (by decide), h.2.2.2.1.trans (by decide), h.2.2.2.2.trans (by decide)⟩

/-- Counterexample to C5 as stated: the payload `{}` deserializes to the zero
message, whose timestamp (year 1) is more than 292 years before the receive
time; `time.Since` saturates at `maxDuration`, so the handler adds
9223372036854775 microseconds to `latencySum`, not the receive time minus the
timestamp (63835596800001000 microseconds), although that sum fits 64 bits. -/
theorem subscriber_latency_saturates :
    sampleUnmarshal.decode emptyObjectDelivery.data = some zeroMessage ∧
    zeroMessage.Timestamp.wall ≤ emptyObjectDelivery.now.wall ∧
    (emptyObjectDelivery.now.wall - zeroMessage.Timestamp.wall) / 1000 = 63835596800001000 ∧
    startMetrics.latencySum +
      ((emptyObjectDelivery.now.wall - zeroMessage.Timestamp.wall) / 1000).toNat < u64 ∧
    (handler sampleUnmarshal startMetrics emptyObjectDelivery).metrics.latencySum =
      9223372036854775 ∧
    (handler sampleUnmarshal startMetrics emptyObjectDelivery).metrics.latencySum ≠
      startMetrics.latencySum +
        ((emptyObjectDelivery.now.wall - zeroMessage.Timestamp.wall) / 1000).toNat := by
  decide

/-- C6: the subscriber's `reportMetrics` is defined on every metrics state
and clock reading; its average latency is the quotient of `latencySum` by
`latencyCount` when `latencyCount > 0` and the constant 0 otherwise, and no
division it performs for the average has `float64(0)` from `latencyCount`
as divisor. -/
theorem subscriber_avgLatency_guarded (m : Metrics) (now : Time) :
    (reportMetrics m now).2.avgLatency =
      (if m.latencyCount > 0 then F64.div (F64.ofUint64 m.latencySum) (F64.ofUint64 m.latencyCount)
       else F64.const 0) ∧
    F64.ofUint64 0 ∉ (reportMetrics m now).2.avgLatency.divisors ∧
    (reportMetrics m now).2.avgLatency.divisors =
      (if m.latencyCount > 0 then [F64.ofUint64 m.latencyCount] else []) := by
  unfold reportMetrics
  by_cases h : m.latencyCount > 0
  · simp only [h, if_true, F64.divisors, List.append_nil, List.mem_singleton]
    refine ⟨trivial, ?_, trivial⟩
    intro hc
    have h0 := F64.ofUint64.inj hc
    omega
  · simp only [h, if_false, F64.divisors]
    exact ⟨trivial, List.not_mem_nil _, trivial⟩

end Subscriber

/-! ## Both programs -/

/-- C9: `reportMetrics` of the publisher and of the subscriber returns the
metrics it was given, every field unchanged; a second call on the resulting
state with a clock reading that gives the same elapsed time logs the same
count, rate, throughput and (subscriber) average latency. -/
theorem reportMetrics_preserves_metrics (pm : Publisher.Metrics) (sm : Subscriber.Metrics)
    (now1 now2 : Time)
    (hp : Since now2 pm.startTime = Since now1 pm.startTime)
    (hs : Since now2 sm.startTime = Since now1 sm.startTime) :
    (Publisher.reportMetrics pm now1).1 = pm ∧
    (Subscriber.reportMetrics sm now1).1 = sm ∧
    (Publisher.reportMetrics (Publisher.reportMetrics pm now1).1 now2).2 =
      (Publisher.reportMetrics pm now1).2 ∧
    (Subscriber.reportMetrics (Subscriber.reportMetrics sm now1).1 now2).2 =
      (Subscriber.reportMetrics sm now1).2 := by
  refine ⟨rfl, rfl, ?_, ?_⟩
  · simp only [Publisher.reportMetrics, hp]
  · simp only [Subscriber.reportMetrics, hs]

/-- Witness of C9 on the start metrics of both programs, with two clock
readings that differ on the wall clock and agree on the elapsed time. -/
theorem reportMetrics_preserves_metrics_witness :
    (Since (Time.mk 1700000000000009999 (some 7000)) Publisher.startMetrics.startTime =
        Since (Publisher.clock 7000) Publisher.startMetrics.startTime ∧
      Since (Time.mk 1700000000000009999 (some 7000)) Subscriber.startMetrics.startTime =
        Since (Publisher.clock 7000) Subscriber.startMetrics.startTime) ∧
    (Publisher.reportMetrics Publisher.startMetrics (Publisher.clock 7000)).1 =
      Publisher.startMetrics ∧
    (Subscriber.reportMetrics Subscriber.startMetrics (Publisher.clock 7000)).1 =
      Subscriber.startMetrics ∧
    (Publisher.reportMetrics
        (Publisher.reportMetrics Publisher.startMetrics (Publisher.clock 7000)).1
        (Time.mk 1700000000000009999 (some 7000))).2 =
      (Publisher.reportMetrics Publisher.startMetrics (Publisher.clock 7000)).2 ∧
    (Subscriber.reportMetrics
        (Subscriber.reportMetrics Subscriber.startMetrics (Publisher.clock 7000)).1
        (Time.mk 1700000000000009999 (some 7000))).2 =
      (Subscriber.reportMetrics Subscriber.startMetrics (Publisher.clock 7000)).2 :=
  ⟨⟨by decide, by decide⟩,
    reportMetrics_preserves_metrics Publisher.startMetrics Subscriber.startMetrics
      (Publisher.clock 7000) (Time.mk 1700000000000009999 (some 7000)) (by decide) (by decide)⟩

/-- C10, evaluated after the report period has elapsed: a publisher tick on
which `nc.Publish` returns an error, and a subscriber delivery whose payload
`no` fails to deserialize, log no report and leave `lastReportTime` unchanged
although more than one second has elapsed since the last report; three such
ticks at 1 s, 2 s and 3 s log no report at all. The same tick with a
successful publish, and the delivery of a well-formed payload, log a report
and store the new clock reading. -/
theorem periodic_report_skipped_on_failure :
    Since (Publisher.publishFailTick 2000000000).sinceNow Publisher.startMetrics.lastReportTime
      ≥ Second ∧
    (Publisher.tick Publisher.startMetrics (Publisher.publishFailTick 2000000000)).report = none ∧
    (Publisher.tick Publisher.startMetrics (Publisher.publishFailTick 2000000000)).metrics.lastReportTime
      = Publisher.startMetrics.lastReportTime ∧
    (Publisher.run Publisher.startMetrics
      [Publisher.publishFailTick 1000000000, Publisher.publishFailTick 2000000000,
        Publisher.publishFailTick 3000000000]).2.map (fun r => r.report) = [none, none, none] ∧
    (Publisher.run Publisher.startMetrics
      [Publisher.publishFailTick 1000000000, Publisher.publishFailTick 2000000000,
        Publisher.publishFailTick 3000000000]).1.lastReportTime
      = Publisher.startMetrics.lastReportTime ∧
    (Publisher.tick Publisher.startMetrics (Publisher.okTick 2000000000)).report ≠ none ∧
    (Publisher.tick Publisher.startMetrics (Publisher.okTick 2000000000)).metrics.lastReportTime
      = (Publisher.okTick 2000000000).setNow ∧
    Since (Subscriber.deliveryAt 2000000000 Subscriber.malformedPayload).sinceNow
      Subscriber.startMetrics.lastReportTime ≥ Second ∧
    Subscriber.sampleUnmarshal.decode
      (Subscriber.deliveryAt 2000000000 Subscriber.malformedPayload).data = none ∧
    (Subscriber.handler Subscriber.sampleUnmarshal Subscriber.startMetrics
      (Subscriber.deliveryAt 2000000000 Subscriber.malformedPayload)).report = none ∧
    (Subscriber.handler Subscriber.sampleUnmarshal Subscriber.startMetrics
      (Subscriber.deliveryAt 2000000000 Subscriber.malformedPayload)).metrics.lastReportTime
      = Subscriber.startMetrics.lastReportTime ∧
    Subscriber.sampleUnmarshal.decode
      (Subscriber.deliveryAt 2000000000 Subscriber.stampedPayload).data
      = some Subscriber.stampedMessage ∧
    (Subscriber.handler Subscriber.sampleUnmarshal Subscriber.startMetrics
      (Subscriber.deliveryAt 2000000000 Subscriber.stampedPayload)).report ≠ none ∧
    (Subscriber.handler Subscriber.sampleUnmarshal Subscriber.startMetrics
      (Subscriber.deliveryAt 2000000000 Subscriber.stampedPayload)).metrics.lastReportTime
      = (Subscriber.deliveryAt 2000000000 Subscriber.stampedPayload).setNow := by
  decide

end Natsbench
